import Mathlib

/-!
Shallow embedding of `src/nugget/devicemanagement/device_manager.py`
(the tweak-application and restore-orchestration engine of the
quick-sparserestore tool).

The repository code under `src/` is a single Python file, `device_manager.py`.
External collaborators (device discovery, lockdown sessions, the restore
wire channel, plist binary encoding, the tweak catalog and the `Version`
class) live outside `src/`; they are modelled as parameters of the
embedded functions, or, where the spec pins them down, as definitions
marked "Modelled from the spec".

Machine representation choices:
- a Python `dict` used as a plist document is `Dict := List (String × String)`
  (the tweak mutation functions over it are opaque parameters, so the
  entry type is irrelevant to every claim);
- `plistlib.dumps`/raw bytes are a `Contents` tag (`plist d` / `raw bs`),
  since the binary plist encoding is external and deterministic;
- Python exceptions escaping a function are `Except String`;
- exceptions caught by the `try/except` blocks are a `PyError` record of
  `type(e).__name__` and `str(e)`.
-/

/-- A plist document held in memory (a Python `dict`). -/
abbrev Dict := List (String × String)

/-- Byte content of a restore payload: either the serialization of a plist
document (`plistlib.dumps`), or literal bytes (`b""` in the reset path). -/
inductive Contents where
  | plist (d : Dict)
  | raw (bytes : List Nat)
deriving DecidableEq

/-- `FileToRestore` from `exploit/restore.py` as used by `device_manager.py`:
a (content, destination directory, destination filename) triple. -/
structure FileToRestore where
  contents : Contents
  restore_path : String
  restore_name : String
deriving DecidableEq

/-- `Device` as constructed in `DeviceManager.get_devices`; the lockdown
session handle `ld` is opaque, modelled as a numeric identifier. -/
structure Device where
  uuid : String
  name : String
  version : String
  model : String
  locale : String
  ld : Nat
deriving DecidableEq

/-- The fields of `DataSingleton` that `device_manager.py` reads or writes. -/
structure DataSingleton where
  current_device : Option Device
  device_available : Bool
  gestalt_path : Option String
deriving DecidableEq

/-- The mutable state of a `DeviceManager` instance. -/
structure DMState where
  devices : List Device
  data_singleton : DataSingleton
  current_device_index : Nat
  apply_over_wifi : Bool
deriving DecidableEq

/-- Splits a character list into the groups separated by dots. -/
def splitDots : List Char → List (List Char)
  | [] => [[]]
  | c :: cs =>
    if c == '.' then [] :: splitDots cs
    else
      match splitDots cs with
      | [] => [[c]]
      | g :: gs => (c :: g) :: gs

/-- Decimal value of a digit group (non-digits contribute via their code
point; version strings are numeric in practice). -/
def digitsToNat (acc : Nat) : List Char → Nat
  | [] => acc
  | c :: cs => digitsToNat (acc * 10 + (c.toNat - 48)) cs

/-- Modelled from the spec: `Version` (from `devicemanagement/constants.py`,
which is not under `src/`) parses a dotted numeric version string into its
numeric components. -/
def parseVersion (s : String) : List Nat :=
  (splitDots s.data).map (digitsToNat 0)

/-- Modelled from the spec: strict component-wise numeric comparison of
parsed versions (`Version.__lt__` lives outside `src/`). -/
def versionLt : List Nat → List Nat → Bool
  | [], [] => false
  | [], _ :: _ => true
  | _ :: _, [] => false
  | a :: as, b :: bs =>
    if a < b then true
    else if b < a then false
    else versionLt as bs

/-- `DeviceManager.min_version = Version("17")`. -/
def min_version : List Nat := parseVersion "17"

/-- `DeviceManager.set_current_device`.  Indexing `self.devices[index]` with
an out-of-range index raises, modelled as `Except.error`. -/
def set_current_device (st : DMState) (index : Option Nat) : Except String DMState :=
  match index with
  | none =>
    .ok { st with
      data_singleton :=
        { current_device := none, device_available := false, gestalt_path := none },
      current_device_index := 0 }
  | some i =>
    match st.devices.get? i with
    | none => .error "IndexError: list index out of range"
    | some d =>
      if versionLt (parseVersion d.version) min_version then
        .ok { st with
          data_singleton := { st.data_singleton with
            current_device := some d,
            device_available := false,
            gestalt_path := none },
          current_device_index := i }
      else
        .ok { st with
          data_singleton := { st.data_singleton with
            current_device := some d,
            device_available := true },
          current_device_index := i }

/-- A device as reported by the external `usbmux.list_devices()` discovery. -/
structure MuxDevice where
  serial : String
  is_usb : Bool
deriving DecidableEq

/-- The discovery loop of `DeviceManager.get_devices`: filters by the
Wi-Fi policy, tries to open a lockdown session on each device
(`openSession`, external; `none` models a raised exception, which the
loop catches and surfaces as a non-fatal notice).  Returns the collected
device list and the number of non-fatal error notices shown. -/
def openLoop (openSession : MuxDevice → Option Device) (wifi : Bool) :
    List MuxDevice → List Device × Nat
  | [] => ([], 0)
  | d :: rest =>
    if wifi || d.is_usb then
      match openSession d with
      | some dev =>
        let (ds, n) := openLoop openSession wifi rest
        (dev :: ds, n)
      | none =>
        let (ds, n) := openLoop openSession wifi rest
        (ds, n + 1)
    else
      openLoop openSession wifi rest

/-- `DeviceManager.get_devices`: clears and refills the registry from the
discovery loop, then selects index 0 if `len(connected_devices) > 0`
(note: the length of the raw discovery list, not of the registry), else
clears the selection.  Returns the new state and the notice count. -/
def get_devices (openSession : MuxDevice → Option Device)
    (connected : List MuxDevice) (st : DMState) : Except String (DMState × Nat) :=
  let (devs, errs) := openLoop openSession st.apply_over_wifi connected
  let st1 := { st with devices := devs }
  if connected.length > 0 then
    (set_current_device st1 (some 0)).map (fun s2 => (s2, errs))
  else
    (set_current_device st1 none).map (fun s2 => (s2, errs))

/-- The tweak catalog entries as dispatched by `apply_changes`:
`FeatureFlagTweak` (flag-patch), `EligibilityTweak` (file-set), and every
other tweak class (document-patch).  Mutation functions are opaque. -/
inductive Tweak where
  | featureFlag (f : Dict → Dict)
  | eligibility (files : List FileToRestore)
  | docPatch (f : Dict → Dict)

/-- Whether a catalog entry lands in the document-patch branch of the
dispatch in `apply_changes`. -/
def Tweak.isDocPatch : Tweak → Bool
  | .docPatch _ => true
  | _ => false

/-- The three accumulators of `apply_changes`'s tweak loop:
`flag_plist`, `eligibility_files`, `gestalt_plist`. -/
structure MergeState where
  flag_plist : Dict
  eligibility_files : Option (List FileToRestore)
  gestalt_plist : Option Dict

/-- The `for tweak_name in tweaks` loop body of `apply_changes`:
flag-patches fold the flag document, an `EligibilityTweak` OVERWRITES
`eligibility_files` with its own file list, document-patches fold the
base document and are skipped when it is absent. -/
def applyTweaksLoop : List Tweak → MergeState → MergeState
  | [], s => s
  | t :: rest, s =>
    match t with
    | .featureFlag f =>
      applyTweaksLoop rest { s with flag_plist := f s.flag_plist }
    | .eligibility files =>
      applyTweaksLoop rest { s with eligibility_files := some files }
    | .docPatch f =>
      match s.gestalt_plist with
      | some g => applyTweaksLoop rest { s with gestalt_plist := some (f g) }
      | none => applyTweaksLoop rest s

/-- The accumulator state after the tweak-application phase of
`apply_changes`: the base document is loaded from `gestalt_path` when set
(`readPlist` models `plistlib.load` on that file), the flag document
starts empty, and the loop is skipped entirely when `resetting`. -/
def mergedState (readPlist : String → Dict) (cat : List Tweak)
    (resetting : Bool) (ds : DataSingleton) : MergeState :=
  let init : MergeState := ⟨[], none, ds.gestalt_path.map readPlist⟩
  if resetting then init else applyTweaksLoop cat init

/-- Destination directory of the flag document payload. -/
def flagDir : String := "/var/preferences/FeatureFlags/"

/-- Destination filename of the flag document payload. -/
def flagFileName : String := "Global.plist"

/-- Destination directory of the base-configuration (MobileGestalt) payload. -/
def gestaltDir : String :=
  "/var/containers/Shared/SystemGroup/systemgroup.com.apple.mobilegestaltcache/Library/Caches/"

/-- Destination filename of the base-configuration payload. -/
def gestaltFileName : String := "com.apple.MobileGestalt.plist"

/-- The flag document payload built at lines 124-130 of `device_manager.py`. -/
def flagFile (d : Dict) : FileToRestore :=
  ⟨Contents.plist d, flagDir, flagFileName⟩

/-- The base-configuration payload built at lines 131-136. -/
def gestaltFile (d : Dict) : FileToRestore :=
  ⟨Contents.plist d, gestaltDir, gestaltFileName⟩

/-- The (possibly empty) base-configuration part of the payload list:
appended iff `gestalt_plist != None`. -/
def gestaltSegment : Option Dict → List FileToRestore
  | some g => [gestaltFile g]
  | none => []

/-- The (possibly empty) file-set part of the payload list: appended iff
`eligibility_files` is truthy in Python (not `None` and not `[]`). -/
def eligSegment : Option (List FileToRestore) → List FileToRestore
  | none => []
  | some fs => if fs.isEmpty then [] else fs

/-- The `files_to_restore` list assembled at lines 124-138: always the flag
payload first, then the base-configuration payload when a base document is
present, then the file-set payloads. -/
def buildFiles (flag : Dict) (gestalt : Option Dict)
    (elig : Option (List FileToRestore)) : List FileToRestore :=
  flagFile flag :: (gestaltSegment gestalt ++ eligSegment elig)

/-- The full payload list built by one `apply_changes` invocation. -/
def apply_changes_files (readPlist : String → Dict) (cat : List Tweak)
    (resetting : Bool) (ds : DataSingleton) : List FileToRestore :=
  let m := mergedState readPlist cat resetting ds
  buildFiles m.flag_plist m.gestalt_plist m.eligibility_files

/-- A caught Python exception: `type(e).__name__` and `str(e)`. -/
structure PyError where
  kind : String
  msg : String
deriving DecidableEq

/-- `p.data` occurs contiguously at the head of `s`. -/
def charsBeginWith : List Char → List Char → Bool
  | [], _ => true
  | _ :: _, [] => false
  | p :: ps, c :: cs => p == c && charsBeginWith ps cs

/-- `pat` occurs contiguously somewhere in `s`. -/
def charsContain (pat : List Char) : List Char → Bool
  | [] => charsBeginWith pat []
  | c :: cs => charsBeginWith pat (c :: cs) || charsContain pat cs

/-- Python's `pat in s` substring test on strings. -/
def strContains (s pat : String) : Bool :=
  charsContain pat.data s.data

/-- Outcome reported by the `except` handlers of `apply_changes` and
`reset_mobilegestalt`. -/
inductive RestoreOutcome where
  | success
  | findMyError
  | unknownError (kind : String)
deriving DecidableEq

/-- The shared error classification of both `except` blocks:
`"Find My" in str(e)` selects the Find-My dialog, anything else the
unknown-error path reporting `type(e).__name__`. -/
def classifyError (e : PyError) : RestoreOutcome :=
  if strContains e.msg "Find My" then .findMyError else .unknownError e.kind

/-- One invocation of the external `restore_files` channel: the payload
list, the reboot directive, and the lockdown client handle. -/
structure RestoreCall where
  files : List FileToRestore
  reboot : Bool
  client : Nat
deriving DecidableEq

/-- `str(e)` for the `AttributeError` raised by evaluating
`self.data_singleton.current_device.ld` when `current_device` is `None`
(Python's message also quotes the names; the quote characters are elided
here, and no claim depends on them — only on the absence of the
`"Find My"` marker). -/
def noneLdMsg : String := "NoneType object has no attribute ld"

/-- The `try`/`except` block shared by `apply_changes` (lines 142-157) and
`reset_mobilegestalt` (lines 163-182): evaluates
`self.data_singleton.current_device.ld` (raising inside the `try` when the
selection is absent), submits the payloads once with `reboot=True`, and
classifies any caught error.  Returns the outcome and the list of channel
invocations actually made. -/
def runGuardedRestore (channel : RestoreCall → Except PyError Unit)
    (files : List FileToRestore) (cur : Option Device) :
    RestoreOutcome × List RestoreCall :=
  match cur with
  | none => (classifyError ⟨"AttributeError", noneLdMsg⟩, [])
  | some d =>
    match channel ⟨files, true, d.ld⟩ with
    | .ok _ => (.success, [⟨files, true, d.ld⟩])
    | .error e => (classifyError e, [⟨files, true, d.ld⟩])

/-- `DeviceManager.apply_changes`: builds the payload list and runs the
guarded restore against the current device's session. -/
def apply_changes (channel : RestoreCall → Except PyError Unit)
    (readPlist : String → Dict) (cat : List Tweak) (resetting : Bool)
    (ds : DataSingleton) : RestoreOutcome × List RestoreCall :=
  runGuardedRestore channel (apply_changes_files readPlist cat resetting ds)
    ds.current_device

/-- The single payload submitted by `DeviceManager.reset_mobilegestalt`:
empty bytes at the base-configuration destination. -/
def resetFilesList : List FileToRestore :=
  [⟨Contents.raw [], gestaltDir, gestaltFileName⟩]

/-- `DeviceManager.reset_mobilegestalt`: submits the single empty
base-configuration payload through the guarded restore. -/
def reset_mobilegestalt (channel : RestoreCall → Except PyError Unit)
    (ds : DataSingleton) : RestoreOutcome × List RestoreCall :=
  runGuardedRestore channel resetFilesList ds.current_device

/-! ### Helper lemmas about the tweak loop -/

/-- If the base document is absent when the loop starts, it stays absent:
document-patches are skipped and no branch creates a base document. -/
theorem applyTweaksLoop_gestalt_none (cat : List Tweak) (s : MergeState)
    (h : s.gestalt_plist = none) :
    (applyTweaksLoop cat s).gestalt_plist = none := by
  induction cat generalizing s with
  | nil => simpa [applyTweaksLoop] using h
  | cons t rest ih =>
    cases t with
    | featureFlag f => exact ih _ h
    | eligibility fs => exact ih _ h
    | docPatch f =>
      rw [applyTweaksLoop, h]
      exact ih _ h

/-- The loop never changes whether a base document is present. -/
theorem applyTweaksLoop_gestalt_isSome (cat : List Tweak) (s : MergeState) :
    (applyTweaksLoop cat s).gestalt_plist.isSome = s.gestalt_plist.isSome := by
  induction cat generalizing s with
  | nil => rfl
  | cons t rest ih =>
    cases t with
    | featureFlag f => exact ih _
    | eligibility fs => exact ih _
    | docPatch f =>
      rw [applyTweaksLoop]
      cases hg : s.gestalt_plist with
      | none => simp [ih, hg]
      | some g => simp [ih, hg]

/-- The file list produced by the last file-set (eligibility) tweak of the
catalog, if any: this is what survives the overwriting assignment. -/
def lastEligFiles : List Tweak → Option (List FileToRestore)
  | [] => none
  | t :: rest =>
    match lastEligFiles rest with
    | some fs => some fs
    | none =>
      match t with
      | .eligibility fs => some fs
      | _ => none

/-- The loop's `eligibility_files` accumulator ends up holding exactly the
last file-set tweak's list (or its initial value when there is none). -/
theorem applyTweaksLoop_elig (cat : List Tweak) (s : MergeState) :
    (applyTweaksLoop cat s).eligibility_files =
      (match lastEligFiles cat with
       | some fs => some fs
       | none => s.eligibility_files) := by
  induction cat generalizing s with
  | nil => rfl
  | cons t rest ih
  => cases t with
    | featureFlag f =>
      rw [applyTweaksLoop, ih]
      cases h : lastEligFiles rest <;> simp [lastEligFiles, h]
    | eligibility fs =>
      rw [applyTweaksLoop, ih]
      cases h : lastEligFiles rest <;> simp [lastEligFiles, h]
    | docPatch f =>
      rw [applyTweaksLoop]
      cases hg : s.gestalt_plist with
      | none =>
        rw [ih]
        cases h : lastEligFiles rest <;> simp [lastEligFiles, h]
      | some g =>
        rw [ih]
        cases h : lastEligFiles rest <;> simp [lastEligFiles, h]

/-- With no base document, running the loop on the whole catalog equals
running it on the catalog with the document-patch entries removed. -/
theorem applyTweaksLoop_skip_doc (cat : List Tweak) (s : MergeState)
    (h : s.gestalt_plist = none) :
    applyTweaksLoop cat s =
      applyTweaksLoop (cat.filter (fun t => !t.isDocPatch)) s := by
  induction cat generalizing s with
  | nil => rfl
  | cons t rest ih =>
    cases t with
    | featureFlag f =>
      rw [applyTweaksLoop, List.filter_cons]
      simp only [Tweak.isDocPatch, Bool.not_false, if_pos trivial]
      rw [applyTweaksLoop]
      exact ih _ h
    | eligibility fs =>
      rw [applyTweaksLoop, List.filter_cons]
      simp only [Tweak.isDocPatch, Bool.not_false, if_pos trivial]
      rw [applyTweaksLoop]
      exact ih _ h
    | docPatch f =>
      rw [applyTweaksLoop, h, List.filter_cons]
      simp only [Tweak.isDocPatch, Bool.not_true]
      rw [if_neg (by simp)]
      exact ih _ h

/-- With no stored `gestalt_path`, the merged state has no base document
and the built payload list is the flag payload followed only by the
file-set payloads. -/
theorem apply_changes_files_no_path (readPlist : String → Dict)
    (cat : List Tweak) (ds : DataSingleton) (h : ds.gestalt_path = none) :
    (mergedState readPlist cat false ds).gestalt_plist = none ∧
    apply_changes_files readPlist cat false ds =
      flagFile (mergedState readPlist cat false ds).flag_plist
        :: eligSegment (mergedState readPlist cat false ds).eligibility_files := by
  have hg : (mergedState readPlist cat false ds).gestalt_plist = none := by
    unfold mergedState
    simp only [if_neg Bool.false_ne_true]
    exact applyTweaksLoop_gestalt_none _ _ (by simp [h])
  refine ⟨hg, ?_⟩
  show flagFile (mergedState readPlist cat false ds).flag_plist
      :: (gestaltSegment (mergedState readPlist cat false ds).gestalt_plist
          ++ eligSegment (mergedState readPlist cat false ds).eligibility_files) = _
  rw [hg]
  rfl

/-! ### Concrete fixtures used by counterexamples and witnesses -/

/-- A concrete ineligible device: iOS 16.0, below the minimum of 17. -/
def dev16 : Device := ⟨"uuid-16", "Old Phone", "16.0", "iPhone9,1", "en_US", 1⟩

/-- A concrete eligible device: iOS 17.1, at or above the minimum of 17. -/
def dev17 : Device := ⟨"uuid-17", "New Phone", "17.1", "iPhone15,2", "en_US", 2⟩

/-- A `DataSingleton` with no selection and no stored base-document path. -/
def emptySingleton : DataSingleton := ⟨none, false, none⟩

/-- A `DataSingleton` with a stored base-document path. -/
def pathSingleton : DataSingleton := ⟨none, false, some "/saved/gestalt.plist"⟩

/-- A manager state holding only the ineligible device. -/
def st16 : DMState := ⟨[dev16], emptySingleton, 0, true⟩

/-- A manager state holding only the eligible device, with a stored
base-document path. -/
def st17 : DMState := ⟨[dev17], pathSingleton, 0, true⟩

/-- A concrete file produced by a first file-set tweak. -/
def fA : FileToRestore := ⟨Contents.raw [1], "/setA/", "a.plist"⟩

/-- A concrete file produced by a second file-set tweak. -/
def fB : FileToRestore := ⟨Contents.raw [2], "/setB/", "b.plist"⟩

/-! ### Claim theorems -/

/-- C1: selecting a device whose version is below the minimum-supported
version makes `device_available` false and clears `gestalt_path`, so every
subsequent (non-reset) apply merges with no base document and builds a
transaction with no base-configuration payload: just the flag payload
followed by the file-set payloads. -/
theorem c1_ineligible_clears_base (st : DMState) (i : Nat) (d : Device)
    (hd : st.devices.get? i = some d)
    (hv : versionLt (parseVersion d.version) min_version = true) :
    ∃ st2, set_current_device st (some i) = .ok st2 ∧
      st2.data_singleton.device_available = false ∧
      st2.data_singleton.gestalt_path = none ∧
      ∀ (readPlist : String → Dict) (cat : List Tweak),
        (mergedState readPlist cat false st2.data_singleton).gestalt_plist = none ∧
        apply_changes_files readPlist cat false st2.data_singleton =
          flagFile (mergedState readPlist cat false st2.data_singleton).flag_plist
            :: eligSegment
                (mergedState readPlist cat false st2.data_singleton).eligibility_files := by
  refine ⟨{ st with
      data_singleton := { st.data_singleton with
        current_device := some d, device_available := false, gestalt_path := none },
      current_device_index := i }, ?_, rfl, rfl, ?_⟩
  · simp only [set_current_device, hd]
    split
    · rfl
    · rename_i h
      exact absurd hv h
  · intro readPlist cat
    exact apply_changes_files_no_path readPlist cat _ rfl

/-- Witness for C1: the concrete iOS 16.0 device at index 0. -/
theorem c1_witness :
    ∃ st2, set_current_device st16 (some 0) = .ok st2 ∧
      st2.data_singleton.device_available = false ∧
      st2.data_singleton.gestalt_path = none ∧
      ∀ (readPlist : String → Dict) (cat : List Tweak),
        (mergedState readPlist cat false st2.data_singleton).gestalt_plist = none ∧
        apply_changes_files readPlist cat false st2.data_singleton =
          flagFile (mergedState readPlist cat false st2.data_singleton).flag_plist
            :: eligSegment
                (mergedState readPlist cat false st2.data_singleton).eligibility_files :=
  c1_ineligible_clears_base st16 0 dev16 rfl (by decide)

/-- C2 counterexample: a catalog with two file-set tweaks, producing `fA`
and `fB` respectively.  The claim says the built transaction contains the
files of all of them in producer order, i.e. `[flag, fA, fB]`; the code
overwrites the accumulator, so the transaction is `[flag, fB]` and `fA`
is absent. -/
theorem c2_counterexample :
    apply_changes_files (fun _ => []) [Tweak.eligibility [fA], Tweak.eligibility [fB]]
        false emptySingleton = [flagFile [], fB] ∧
    fA ∉ apply_changes_files (fun _ => [])
        [Tweak.eligibility [fA], Tweak.eligibility [fB]] false emptySingleton := by
  refine ⟨rfl, ?_⟩
  decide

/-- C2 amended: each file-set tweak is invoked with no input state, and
its produced list REPLACES the accumulator; the built transaction
contains, after the document-derived payloads, exactly the files of the
last file-set tweak of the catalog (none if there is no file-set tweak),
not those of all of them. -/
theorem c2_last_file_set_wins (readPlist : String → Dict) (cat : List Tweak)
    (ds : DataSingleton) :
    (mergedState readPlist cat false ds).eligibility_files = lastEligFiles cat ∧
    apply_changes_files readPlist cat false ds =
      flagFile (mergedState readPlist cat false ds).flag_plist
        :: (gestaltSegment (mergedState readPlist cat false ds).gestalt_plist
            ++ eligSegment (lastEligFiles cat)) := by
  have he : (mergedState readPlist cat false ds).eligibility_files = lastEligFiles cat := by
    show (applyTweaksLoop cat ⟨[], none, ds.gestalt_path.map readPlist⟩).eligibility_files = _
    rw [applyTweaksLoop_elig]
    cases lastEligFiles cat <;> rfl
  refine ⟨he, ?_⟩
  show flagFile (mergedState readPlist cat false ds).flag_plist
      :: (gestaltSegment (mergedState readPlist cat false ds).gestalt_plist
          ++ eligSegment (mergedState readPlist cat false ds).eligibility_files) = _
  rw [he]

/-- C3: in every apply transaction the flag payload is present and comes
first; the base-configuration payload is present, immediately after it,
iff a base-document path existed for the current device; all file-set
payloads come after the document-derived payloads. -/
theorem c3_transaction_shape (readPlist : String → Dict) (cat : List Tweak)
    (ds : DataSingleton) :
    (ds.gestalt_path = none →
      apply_changes_files readPlist cat false ds =
        flagFile (mergedState readPlist cat false ds).flag_plist
          :: eligSegment (mergedState readPlist cat false ds).eligibility_files) ∧
    (∀ p, ds.gestalt_path = some p →
      ∃ g, apply_changes_files readPlist cat false ds =
        flagFile (mergedState readPlist cat false ds).flag_plist
          :: gestaltFile g
          :: eligSegment (mergedState readPlist cat false ds).eligibility_files) := by
  constructor
  · intro h
    exact (apply_changes_files_no_path readPlist cat ds h).2
  · intro p hp
    have hs : ((mergedState readPlist cat false ds).gestalt_plist).isSome = true := by
      show ((applyTweaksLoop cat ⟨[], none, ds.gestalt_path.map readPlist⟩).gestalt_plist).isSome = true
      rw [applyTweaksLoop_gestalt_isSome]
      simp [hp]
    obtain ⟨g, hgg⟩ := Option.isSome_iff_exists.mp hs
    refine ⟨g, ?_⟩
    show flagFile (mergedState readPlist cat false ds).flag_plist
        :: (gestaltSegment (mergedState readPlist cat false ds).gestalt_plist
            ++ eligSegment (mergedState readPlist cat false ds).eligibility_files) = _
    rw [hgg]
    rfl

/-- Witness for C3: a stored base-document path yields the flag payload
first and the base-configuration payload immediately after. -/
theorem c3_witness :
    ∃ g, apply_changes_files (fun _ => [("k", "v")]) [] false pathSingleton =
      flagFile (mergedState (fun _ => [("k", "v")]) [] false pathSingleton).flag_plist
        :: gestaltFile g
        :: eligSegment (mergedState (fun _ => [("k", "v")]) [] false pathSingleton).eligibility_files :=
  (c3_transaction_shape (fun _ => [("k", "v")]) [] pathSingleton).2 "/saved/gestalt.plist" rfl

/-- C4: with no base document present, every document-patch tweak is
skipped (merging the catalog equals merging the catalog with document
patches removed), nothing is raised (the build is total), and the
transaction still starts with the possibly-empty flag payload. -/
theorem c4_no_base_doc_skips (readPlist : String → Dict) (cat : List Tweak)
    (ds : DataSingleton) (h : ds.gestalt_path = none) :
    mergedState readPlist cat false ds =
      mergedState readPlist (cat.filter (fun t => !t.isDocPatch)) false ds ∧
    apply_changes_files readPlist cat false ds =
      flagFile (mergedState readPlist cat false ds).flag_plist
        :: eligSegment (mergedState readPlist cat false ds).eligibility_files := by
  constructor
  · show applyTweaksLoop cat ⟨[], none, ds.gestalt_path.map readPlist⟩ =
        applyTweaksLoop (cat.filter (fun t => !t.isDocPatch))
          ⟨[], none, ds.gestalt_path.map readPlist⟩
    exact applyTweaksLoop_skip_doc cat _ (by simp [h])
  · exact (apply_changes_files_no_path readPlist cat ds h).2

/-- Witness for C4: a catalog with one document patch, one flag patch and
one file-set tweak, merged with no stored base-document path. -/
theorem c4_witness :
    mergedState (fun _ => []) [Tweak.docPatch id, Tweak.featureFlag id, Tweak.eligibility [fA]]
        false emptySingleton =
      mergedState (fun _ => [])
        (([Tweak.docPatch id, Tweak.featureFlag id, Tweak.eligibility [fA]] :
            List Tweak).filter (fun t => !t.isDocPatch)) false emptySingleton ∧
    apply_changes_files (fun _ => [])
        [Tweak.docPatch id, Tweak.featureFlag id, Tweak.eligibility [fA]]
        false emptySingleton =
      flagFile (mergedState (fun _ => [])
          [Tweak.docPatch id, Tweak.featureFlag id, Tweak.eligibility [fA]]
          false emptySingleton).flag_plist
        :: eligSegment (mergedState (fun _ => [])
            [Tweak.docPatch id, Tweak.featureFlag id, Tweak.eligibility [fA]]
            false emptySingleton).eligibility_files :=
  c4_no_base_doc_skips (fun _ => [])
    [Tweak.docPatch id, Tweak.featureFlag id, Tweak.eligibility [fA]] emptySingleton rfl

/-- C5: every reset with a selected device submits exactly one channel
call carrying exactly one payload — empty byte content destined for the
base-configuration path — with the reboot directive, and no flag payload
is produced. -/
theorem c5_reset_single_payload (channel : RestoreCall → Except PyError Unit)
    (d : Device) (av : Bool) (gp : Option String) :
    (reset_mobilegestalt channel ⟨some d, av, gp⟩).2 =
      [⟨[⟨Contents.raw [], gestaltDir, gestaltFileName⟩], true, d.ld⟩] ∧
    gestaltDir ++ gestaltFileName =
      "/var/containers/Shared/SystemGroup/systemgroup.com.apple.mobilegestaltcache/Library/Caches/com.apple.MobileGestalt.plist" ∧
    ∀ call ∈ (reset_mobilegestalt channel ⟨some d, av, gp⟩).2,
      call.files.length = 1 ∧ call.reboot = true ∧
      ∀ f ∈ call.files, f.restore_name ≠ flagFileName ∧ f.restore_path ≠ flagDir := by
  have h2 : (reset_mobilegestalt channel ⟨some d, av, gp⟩).2 =
      [⟨resetFilesList, true, d.ld⟩] := by
    unfold reset_mobilegestalt runGuardedRestore
    cases h : channel ⟨resetFilesList, true, d.ld⟩ <;> simp [h]
  refine ⟨by rw [h2]; rfl, by decide, ?_⟩
  intro call hc
  rw [h2] at hc
  simp only [List.mem_singleton] at hc
  subst hc
  refine ⟨rfl, rfl, ?_⟩
  intro f hf
  simp only [resetFilesList, List.mem_singleton] at hf
  subst hf
  exact ⟨by decide, by decide⟩

/-- A concrete channel error whose message contains the Find-My marker. -/
def findMyErr : PyError := ⟨"PyErr", "Could not restore: Find My is enabled"⟩

/-- With a device selected, a channel failure makes the guarded restore
report the classification of the caught error, after exactly one channel
invocation. -/
theorem runGuardedRestore_error (channel : RestoreCall → Except PyError Unit)
    (files : List FileToRestore) (d : Device) (e : PyError)
    (hc : channel ⟨files, true, d.ld⟩ = .error e) :
    runGuardedRestore channel files (some d) =
      (classifyError e, [⟨files, true, d.ld⟩]) := by
  simp only [runGuardedRestore]
  rw [hc]

/-- C6: when the restore channel raises during apply or reset, the error
is classified by the Find-My marker substring — marker present gives the
Find-My outcome regardless of other content, anything else gives the
unknown outcome carrying the error's kind — and the channel is invoked
exactly once, so the transaction is never retried. -/
theorem c6_error_classification (channel : RestoreCall → Except PyError Unit)
    (readPlist : String → Dict) (cat : List Tweak) (resetting : Bool)
    (d : Device) (av : Bool) (gp : Option String) (e : PyError)
    (hc : ∀ call, channel call = .error e) :
    (strContains e.msg "Find My" = true →
      (apply_changes channel readPlist cat resetting ⟨some d, av, gp⟩).1 =
        RestoreOutcome.findMyError ∧
      (reset_mobilegestalt channel ⟨some d, av, gp⟩).1 = RestoreOutcome.findMyError) ∧
    (strContains e.msg "Find My" = false →
      (apply_changes channel readPlist cat resetting ⟨some d, av, gp⟩).1 =
        RestoreOutcome.unknownError e.kind ∧
      (reset_mobilegestalt channel ⟨some d, av, gp⟩).1 =
        RestoreOutcome.unknownError e.kind) ∧
    (apply_changes channel readPlist cat resetting ⟨some d, av, gp⟩).2.length = 1 ∧
    (reset_mobilegestalt channel ⟨some d, av, gp⟩).2.length = 1 := by
  have ha : apply_changes channel readPlist cat resetting ⟨some d, av, gp⟩ =
      (classifyError e,
       [⟨apply_changes_files readPlist cat resetting ⟨some d, av, gp⟩, true, d.ld⟩]) :=
    runGuardedRestore_error channel _ d e (hc _)
  have hr : reset_mobilegestalt channel ⟨some d, av, gp⟩ =
      (classifyError e, [⟨resetFilesList, true, d.ld⟩]) :=
    runGuardedRestore_error channel _ d e (hc _)
  refine ⟨fun h => ?_, fun h => ?_, ?_, ?_⟩
  · constructor <;> simp [ha, hr, classifyError, h]
  · constructor <;> simp [ha, hr, classifyError, h]
  · simp [ha]
  · simp [hr]

/-- Witness for C6: a constantly failing channel whose error message
contains the Find-My marker makes both apply and reset report the
Find-My outcome after exactly one channel call. -/
theorem c6_witness :
    (strContains findMyErr.msg "Find My" = true →
      (apply_changes (fun _ => .error findMyErr) (fun _ => []) [] false
          ⟨some dev17, true, none⟩).1 = RestoreOutcome.findMyError ∧
      (reset_mobilegestalt (fun _ => .error findMyErr) ⟨some dev17, true, none⟩).1 =
        RestoreOutcome.findMyError) ∧
    (strContains findMyErr.msg "Find My" = false →
      (apply_changes (fun _ => .error findMyErr) (fun _ => []) [] false
          ⟨some dev17, true, none⟩).1 = RestoreOutcome.unknownError findMyErr.kind ∧
      (reset_mobilegestalt (fun _ => .error findMyErr) ⟨some dev17, true, none⟩).1 =
        RestoreOutcome.unknownError findMyErr.kind) ∧
    (apply_changes (fun _ => .error findMyErr) (fun _ => []) [] false
        ⟨some dev17, true, none⟩).2.length = 1 ∧
    (reset_mobilegestalt (fun _ => .error findMyErr) ⟨some dev17, true, none⟩).2.length = 1 :=
  c6_error_classification (fun _ => .error findMyErr) (fun _ => []) [] false
    dev17 true none findMyErr (fun _ => rfl)

/-- C7 (failing input for the code bug): a refresh with one connected
device whose session open fails leaves the registry empty, yet
`get_devices` tests the length of the raw discovery list, still calls
`set_current_device(0)`, and aborts with an IndexError instead of
clearing the current selection and finishing. -/
theorem c7_refresh_raises_when_all_sessions_fail :
    get_devices (fun _ => none) [⟨"serial-1", true⟩] ⟨[], emptySingleton, 0, true⟩ =
      .error "IndexError: list index out of range" := rfl

/-- C8: the built payload list is a deterministic function of its inputs —
equal base-document readers, equal tweak catalogs (in order), equal reset
flags and equal singleton state give an identical payload list. -/
theorem c8_build_deterministic (ra rb : String → Dict) (ca cb : List Tweak)
    (ba bb : Bool) (da db : DataSingleton)
    (h1 : ra = rb) (h2 : ca = cb) (h3 : ba = bb) (h4 : da = db) :
    apply_changes_files ra ca ba da = apply_changes_files rb cb bb db := by
  subst h1
  subst h2
  subst h3
  subst h4
  rfl

/-- Witness for C8 at concrete inputs. -/
theorem c8_witness :
    apply_changes_files (fun _ => []) [Tweak.eligibility [fA]] false pathSingleton =
      apply_changes_files (fun _ => []) [Tweak.eligibility [fA]] false pathSingleton :=
  c8_build_deterministic (fun _ => []) (fun _ => []) [Tweak.eligibility [fA]]
    [Tweak.eligibility [fA]] false false pathSingleton pathSingleton rfl rfl rfl rfl

/-- C9: selecting an eligible device updates exactly the current-device
reference, the availability flag and the current index; `gestalt_path`
(and the registry itself) is left unchanged, so a previously stored
base-document path persists. -/
theorem c9_eligible_select_frame (st : DMState) (i : Nat) (d : Device)
    (hd : st.devices.get? i = some d)
    (hv : versionLt (parseVersion d.version) min_version = false) :
    set_current_device st (some i) =
      .ok { st with
        data_singleton := { st.data_singleton with
          current_device := some d, device_available := true },
        current_device_index := i } ∧
    ∀ st2, set_current_device st (some i) = .ok st2 →
      st2.data_singleton.gestalt_path = st.data_singleton.gestalt_path ∧
      st2.devices = st.devices ∧
      st2.apply_over_wifi = st.apply_over_wifi := by
  have h1 : set_current_device st (some i) =
      .ok { st with
        data_singleton := { st.data_singleton with
          current_device := some d, device_available := true },
        current_device_index := i } := by
    simp only [set_current_device, hd]
    split
    · rename_i h
      exact absurd h (by rw [hv]; exact Bool.false_ne_true)
    · rfl
  refine ⟨h1, ?_⟩
  intro st2 h2
  rw [h1] at h2
  injection h2 with h3
  subst h3
  exact ⟨rfl, rfl, rfl⟩

/-- Witness for C9: selecting the concrete iOS 17.1 device keeps the
stored base-document path. -/
theorem c9_witness :
    set_current_device st17 (some 0) =
      .ok { st17 with
        data_singleton := { st17.data_singleton with
          current_device := some dev17, device_available := true },
        current_device_index := 0 } ∧
    ∀ st2, set_current_device st17 (some 0) = .ok st2 →
      st2.data_singleton.gestalt_path = st17.data_singleton.gestalt_path ∧
      st2.devices = st17.devices ∧
      st2.apply_over_wifi = st17.apply_over_wifi :=
  c9_eligible_select_frame st17 0 dev17 rfl (by decide)

/-- C10: calling apply or reset with no current device does not raise out
of the operation: the missing-session failure happens inside the guarded
restore step, its message lacks the Find-My marker, so both report the
unknown-restore-error outcome carrying `AttributeError`, and nothing is
submitted to the channel. -/
theorem c10_no_device_selected (channel : RestoreCall → Except PyError Unit)
    (readPlist : String → Dict) (cat : List Tweak) (resetting : Bool)
    (av : Bool) (gp : Option String) :
    apply_changes channel readPlist cat resetting ⟨none, av, gp⟩ =
      (RestoreOutcome.unknownError "AttributeError", []) ∧
    reset_mobilegestalt channel ⟨none, av, gp⟩ =
      (RestoreOutcome.unknownError "AttributeError", []) ∧
    strContains noneLdMsg "Find My" = false := by
  have hcl : classifyError ⟨"AttributeError", noneLdMsg⟩ =
      RestoreOutcome.unknownError "AttributeError" := by decide
  have hrun : runGuardedRestore channel (resetFilesList) none =
      (RestoreOutcome.unknownError "AttributeError", []) := by
    simp only [runGuardedRestore]
    rw [hcl]
  have hrun2 : runGuardedRestore channel
      (apply_changes_files readPlist cat resetting ⟨none, av, gp⟩) none =
      (RestoreOutcome.unknownError "AttributeError", []) := by
    simp only [runGuardedRestore]
    rw [hcl]
  exact ⟨hrun2, hrun, by decide⟩
